import Mathlib

/-!
Verification of the `leptos_aria` press-interaction core.

This file shallowly embeds the relevant parts of the repository:

* `crates/leptos_aria_interactions/src/use_press.rs` — the press state
  machine (`use_press`), its geometry helper `are_rectangles_overlapping` /
  `is_above_target`, and its event handlers;
* `crates/leptos_aria_interactions/src/text_selection.rs` — the generic and
  iOS text-selection suppression strategies;
* `crates/leptos_aria_utils/src/global_listeners.rs` — the listener
  registry;
* `crates/leptos_aria_utils/src/virtual_event.rs` — the virtual-input
  classifier.

Modelling conventions: machine floats (`f64` coordinates) are modelled as
rationals (only order comparisons and exact small-integer arithmetic occur);
DOM elements are modelled by identity (a `Nat` id) plus the attributes the
code reads (bounding rectangle, HTML/SVG kind, inline style values); browser
side effects that no claim observes (focus, `prevent_default`,
`stop_propagation`) are dropped; fallible platform calls are modelled with
`Except`, a Rust `unwrap` panic becoming `Except.error`.  The emitted
`PressEvent`s are recorded in a trace; the source's extra `PressEvent`
fields (target element, modifier keys) and the separate `on_press_change`
boolean callback are not recorded in the trace since no claim mentions them.
-/

namespace LeptosAria

/-! ## Geometry (`use_press.rs`, `are_rectangles_overlapping` / `is_above_target`) -/

/-- `Rect` from `use_press.rs` (field order as in the source). -/
structure Rect (α : Type) where
  top : α
  right : α
  bottom : α
  left : α
deriving DecidableEq

/-- Embeds `are_rectangles_overlapping` from `use_press.rs` lines 662-681:
the loop `continue`s when the rectangles cannot overlap on the x axis or on
the y axis, and otherwise sets the result and breaks. -/
def are_rectangles_overlapping {α : Type} [LinearOrder α] (dom_rect : Rect α) :
    List (Rect α) → Bool
  | [] => false
  | rect :: rest =>
    if dom_rect.left > rect.right ∨ dom_rect.right < rect.left then
      are_rectangles_overlapping dom_rect rest
    else if dom_rect.top > rect.bottom ∨ dom_rect.bottom < rect.top then
      are_rectangles_overlapping dom_rect rest
    else
      true

/-- A rectangle is well formed when both of its coordinate intervals are
nonempty (as is always the case for DOM bounding rectangles and for the
rectangles produced by `get_rects`). -/
def rect_well_formed {α : Type} [LinearOrder α] (r : Rect α) : Prop :=
  r.left ≤ r.right ∧ r.top ≤ r.bottom

instance {α : Type} [LinearOrder α] (r : Rect α) : Decidable (rect_well_formed r) := by
  unfold rect_well_formed
  infer_instance

/-- Spec-side notion, stated from the spec's words: two closed intervals
`[a, b]` and `[c, d]` intersect when they share a point (inclusive bounds). -/
def intervals_intersect {α : Type} [LinearOrder α] (a b c d : α) : Prop :=
  ∃ x, a ≤ x ∧ x ≤ b ∧ c ≤ x ∧ x ≤ d

/-- Spec-side notion: two axis-aligned rectangles overlap exactly when their
x-intervals intersect and their y-intervals intersect. -/
def rects_overlap_spec {α : Type} [LinearOrder α] (dom r : Rect α) : Prop :=
  intervals_intersect dom.left dom.right r.left r.right ∧
    intervals_intersect dom.top dom.bottom r.top r.bottom

theorem intervals_intersect_iff {α : Type} [LinearOrder α] {a b c d : α}
    (hab : a ≤ b) (hcd : c ≤ d) :
    intervals_intersect a b c d ↔ a ≤ d ∧ c ≤ b := by
  constructor
  · rintro ⟨x, h1, h2, h3, h4⟩
    exact ⟨le_trans h1 h4, le_trans h3 h2⟩
  · rintro ⟨had, hcb⟩
    exact ⟨max a c, le_max_left a c, max_le hab hcb, le_max_right a c, max_le had hcd⟩

theorem overlap_cond_iff {α : Type} [LinearOrder α] {dom r : Rect α}
    (hdom : rect_well_formed dom) (hr : rect_well_formed r) :
    (¬(dom.left > r.right ∨ dom.right < r.left) ∧
      ¬(dom.top > r.bottom ∨ dom.bottom < r.top)) ↔ rects_overlap_spec dom r := by
  obtain ⟨hdx, hdy⟩ := hdom
  obtain ⟨hrx, hry⟩ := hr
  rw [rects_overlap_spec, intervals_intersect_iff hdx hrx, intervals_intersect_iff hdy hry]
  push_neg
  constructor
  · rintro ⟨⟨h1, h2⟩, ⟨h3, h4⟩⟩
    exact ⟨⟨h1, h2⟩, h3, h4⟩
  · rintro ⟨⟨h1, h2⟩, ⟨h3, h4⟩⟩
    exact ⟨⟨h1, h2⟩, h3, h4⟩

theorem are_rectangles_overlapping_eq_true_iff {α : Type} [LinearOrder α]
    (dom : Rect α) (rects : List (Rect α)) :
    are_rectangles_overlapping dom rects = true ↔
      ∃ r ∈ rects, ¬(dom.left > r.right ∨ dom.right < r.left) ∧
        ¬(dom.top > r.bottom ∨ dom.bottom < r.top) := by
  induction rects with
  | nil => simp [are_rectangles_overlapping]
  | cons r rs ih =>
    rw [are_rectangles_overlapping]
    by_cases h1 : dom.left > r.right ∨ dom.right < r.left
    · rw [if_pos h1, ih]
      constructor
      · rintro ⟨x, hx, hox⟩
        exact ⟨x, List.mem_cons_of_mem _ hx, hox⟩
      · rintro ⟨x, hx, hox⟩
        rcases List.mem_cons.mp hx with rfl | hx
        · exact absurd h1 hox.1
        · exact ⟨x, hx, hox⟩
    · rw [if_neg h1]
      by_cases h2 : dom.top > r.bottom ∨ dom.bottom < r.top
      · rw [if_pos h2, ih]
        constructor
        · rintro ⟨x, hx, hox⟩
          exact ⟨x, List.mem_cons_of_mem _ hx, hox⟩
        · rintro ⟨x, hx, hox⟩
          rcases List.mem_cons.mp hx with rfl | hx
          · exact absurd h2 hox.2
          · exact ⟨x, hx, hox⟩
      · simp only [if_neg h2]
        constructor
        · intro _
          exact ⟨r, List.mem_cons_self r rs, h1, h2⟩
        · intro _
          trivial

/-- C6: for every well-formed target bounding rectangle and list of
well-formed input rectangles, `are_rectangles_overlapping` returns `true`
iff at least one input rectangle overlaps the target rectangle, where
overlap means the x-intervals intersect and the y-intervals intersect, with
inclusive bounds. -/
theorem are_rectangles_overlapping_iff_overlap {α : Type} [LinearOrder α]
    (dom : Rect α) (rects : List (Rect α))
    (hdom : rect_well_formed dom) (hrects : ∀ r ∈ rects, rect_well_formed r) :
    are_rectangles_overlapping dom rects = true ↔
      ∃ r ∈ rects, rects_overlap_spec dom r := by
  rw [are_rectangles_overlapping_eq_true_iff]
  constructor
  · rintro ⟨r, hr, hcond⟩
    exact ⟨r, hr, (overlap_cond_iff hdom (hrects r hr)).mp hcond⟩
  · rintro ⟨r, hr, hspec⟩
    exact ⟨r, hr, (overlap_cond_iff hdom (hrects r hr)).mpr hspec⟩

/-- C6 witness: the spec's own example — target `{top 0, left 0, bottom 10,
right 10}` against the degenerate point rectangle `{top 5, left 5, bottom 5,
right 5}` — satisfies the hypotheses, and the geometry test agrees with the
overlap predicate there (both hold). -/
theorem are_rectangles_overlapping_iff_overlap_witness :
    rect_well_formed (⟨0, 10, 10, 0⟩ : Rect ℤ) ∧
      (are_rectangles_overlapping (⟨0, 10, 10, 0⟩ : Rect ℤ) [⟨5, 5, 5, 5⟩] = true ↔
        ∃ r ∈ [(⟨5, 5, 5, 5⟩ : Rect ℤ)], rects_overlap_spec ⟨0, 10, 10, 0⟩ r) :=
  ⟨by decide,
    are_rectangles_overlapping_iff_overlap (⟨0, 10, 10, 0⟩ : Rect ℤ) [⟨5, 5, 5, 5⟩]
      (by decide) (by decide)⟩

/-! ## Press state machine (`use_press.rs`) -/

/-- `PointerType` from `use_press.rs`. -/
inductive PointerType
  | Unsupported
  | Mouse
  | Pen
  | Touch
  | Keyboard
  | Virtual
deriving DecidableEq

/-- `impl From<&str> for PointerType` from `use_press.rs`. -/
def pointer_type_of_string : String → PointerType
  | "mouse" => .Mouse
  | "pen" => .Pen
  | "touch" => .Touch
  | "keyboard" => .Keyboard
  | "virtual" => .Virtual
  | _ => .Unsupported

/-- `PressEventType` from `use_press.rs`. -/
inductive PressEventType
  | PressStart
  | PressEnd
  | PressUp
  | Press
deriving DecidableEq

/-- `PressEvent` from `use_press.rs`, restricted to the fields some claim
mentions (the source also carries the target element and the four modifier
keys, which no claim observes). -/
structure PressEvent where
  event_type : PressEventType
  pointer_type : PointerType
deriving DecidableEq

/-- A DOM element as the press handlers see it: an identity and the bounding
client rectangle returned by `get_bounding_client_rect` (coordinates
modelled as integers; only comparisons and exact ± arithmetic occur). -/
structure TargetElem where
  id : Nat
  rect : Rect ℤ
deriving DecidableEq

/-- A `web_sys::PointerEvent` restricted to the fields the handlers read.
`inside_current_target` models `event_current_target.contains(event_target)`
(the DOM containment test on the event's target). -/
structure PointerEventM where
  pointer_id : Int
  button : Int
  pointer_type_str : String
  client_x : ℤ
  client_y : ℤ
  width : ℤ
  height : ℤ
  pressure : ℚ
  detail : Int
  inside_current_target : Bool
deriving DecidableEq

/-- Embeds `is_virtual_pointer_event` from `virtual_event.rs` lines 39-54. -/
def is_virtual_pointer_event (e : PointerEventM) : Bool :=
  (decide (e.width = 0) && decide (e.height = 0)) ||
    (decide (e.width = 1) && decide (e.height = 1) && decide (e.pressure = 0) &&
      decide (e.detail = 0) && decide (e.pointer_type_str = "mouse"))

/-- Embeds `impl GetRects for PointerEvent` from `use_press.rs` lines
785-802: one rectangle centred on the client point, inflated by the event's
width/height. -/
def pointer_event_get_rects (e : PointerEventM) : List (Rect ℤ) :=
  [{ top := e.client_y - e.height
     right := e.client_x + e.width
     bottom := e.client_y + e.height
     left := e.client_x - e.width }]

/-- Embeds `is_above_target` from `use_press.rs` lines 683-687, for pointer
events: overlap of the target's bounding rectangle with the event's
rectangles. -/
def is_above_target (e : PointerEventM) (target : TargetElem) : Bool :=
  are_rectangles_overlapping target.rect (pointer_event_get_rects e)

/-- The configuration options read by the handlers (each a reactive boolean
in the source, defaulting to `false`). -/
structure PressProps where
  is_disabled : Bool
  prevent_focus_on_press : Bool
  should_cancel_on_pointer_exit : Bool
  allow_text_selection_on_press : Bool
deriving DecidableEq

/-- The per-gesture mutable state of `use_press` (the signals created at the
top of the function).  `listeners_registered` models whether the
document-level pointermove/pointerup/pointercancel listeners added by
`on_pointer_down` are currently attached (they are added and removed as one
group through `GlobalListeners`). -/
structure PressState where
  ignore_emulated_mouse_events : Bool
  ignore_click_after_press : Bool
  did_fire_press_start : Bool
  active_pointer_id : Option Int
  target : Option TargetElem
  is_over_target : Bool
  pointer_type : PointerType
  is_pressed : Bool
  listeners_registered : Bool
deriving DecidableEq

/-- The initial state: every signal starts `false` / `None` /
`Unsupported`. -/
def init_press_state : PressState where
  ignore_emulated_mouse_events := false
  ignore_click_after_press := false
  did_fire_press_start := false
  active_pointer_id := none
  target := none
  is_over_target := false
  pointer_type := .Unsupported
  is_pressed := false
  listeners_registered := false

/-- Embeds `trigger_press_start` from `use_press.rs` lines 80-96.  Returns
the new state and the emitted press events (the `on_press_change(true)`
boolean callback is not recorded in the trace). -/
def trigger_press_start (props : PressProps) (s : PressState) (pointer : PointerType) :
    PressState × List PressEvent :=
  if props.is_disabled ∨ s.did_fire_press_start then (s, [])
  else
    ({ s with did_fire_press_start := true, is_pressed := true },
      [⟨.PressStart, pointer⟩])

/-- Embeds `trigger_press_end` from `use_press.rs` lines 98-126: no-op
unless a start fired; sets `ignore_click_after_press`, clears
`did_fire_press_start`, emits `PressEnd`, clears `is_pressed`, and emits
`Press` additionally when `was_pressed` holds and the element is not
disabled. -/
def trigger_press_end (props : PressProps) (s : PressState) (pointer : PointerType)
    (was_pressed : Bool) : PressState × List PressEvent :=
  if ¬s.did_fire_press_start then (s, [])
  else
    let s' : PressState :=
      { s with ignore_click_after_press := true, did_fire_press_start := false,
               is_pressed := false }
    if ¬was_pressed ∨ props.is_disabled then (s', [⟨.PressEnd, pointer⟩])
    else (s', [⟨.PressEnd, pointer⟩, ⟨.Press, pointer⟩])

/-- Embeds `trigger_press_up` from `use_press.rs` lines 128-139. -/
def trigger_press_up (props : PressProps) (s : PressState) (pointer : PointerType) :
    PressState × List PressEvent :=
  if props.is_disabled then (s, []) else (s, [⟨.PressUp, pointer⟩])

/-- Embeds `cancel` from `use_press.rs` lines 141-169: no-op unless
pressed; fires `trigger_press_end(was_pressed = false)` when over the
target; clears the transient flags and removes the document listeners (the
`restore_text_selection` call acts on the selection state modelled
separately below). -/
def cancel (props : PressProps) (s : PressState) : PressState × List PressEvent :=
  if ¬s.is_pressed then (s, [])
  else
    let (s1, out) :=
      if s.is_over_target then trigger_press_end props s s.pointer_type false
      else (s, [])
    ({ s1 with is_pressed := false, is_over_target := false, active_pointer_id := none,
               pointer_type := .Unsupported, listeners_registered := false },
      out)

/-- Embeds the document-scoped `on_pointer_move` handler from `use_press.rs`
lines 419-450, exactly as written (including its `else if` chain). -/
def on_pointer_move (props : PressProps) (s : PressState) (e : PointerEventM) :
    PressState × List PressEvent :=
  if some e.pointer_id ≠ s.active_pointer_id then (s, [])
  else
    match s.target with
    | none => (s, [])
    | some element =>
      if is_above_target e element ∧ ¬s.is_over_target then
        trigger_press_start props { s with is_over_target := true } s.pointer_type
      else if s.is_over_target then
        let (s1, out1) :=
          trigger_press_end props { s with is_over_target := false } s.pointer_type false
        if props.should_cancel_on_pointer_exit then
          let (s2, out2) := cancel props s1
          (s2, out1 ++ out2)
        else (s1, out1)
      else (s, [])

/-- Embeds the element-scoped `on_pointer_up` handler from `use_press.rs`
lines 452-477: guarded by containment, non-virtual recorded pointer type,
primary button and geometry, then fires `trigger_press_up` with
`PointerType::Mouse`. -/
def on_pointer_up (props : PressProps) (element : TargetElem) (s : PressState)
    (e : PointerEventM) : PressState × List PressEvent :=
  if ¬e.inside_current_target ∨ s.pointer_type = .Virtual then (s, [])
  else if e.button ≠ 0 ∨ ¬is_above_target e element then (s, [])
  else trigger_press_up props s .Mouse

/-- Embeds the document-scoped `global_on_pointer_up` handler from
`use_press.rs` lines 479-516. -/
def global_on_pointer_up (props : PressProps) (s : PressState) (e : PointerEventM) :
    PressState × List PressEvent :=
  if some e.pointer_id ≠ s.active_pointer_id ∨ ¬s.is_pressed ∨ e.button ≠ 0 then (s, [])
  else
    match s.target with
    | none => (s, [])
    | some element =>
      let (s1, out) :=
        if is_above_target e element then
          trigger_press_end props s s.pointer_type true
        else if s.is_over_target then
          trigger_press_end props s s.pointer_type false
        else (s, [])
      ({ s1 with is_pressed := false, is_over_target := false, active_pointer_id := none,
                 pointer_type := .Unsupported, listeners_registered := false },
        out)

/-- Embeds the element-scoped `on_pointer_down` handler from `use_press.rs`
lines 518-613, exactly as written: the first guard returns when
`event.button() == 0` or the event target is outside the element; a virtual
pointer event only records `PointerType::Virtual`; otherwise the pointer
type is recorded, an already-pressed gesture is ignored, the transient state
is set, `trigger_press_start` fires, and the three document listeners are
registered.  (The focus and text-selection side effects touch no press
state.) -/
def on_pointer_down (props : PressProps) (element : TargetElem) (s : PressState)
    (e : PointerEventM) : PressState × List PressEvent :=
  if e.button = 0 ∨ ¬e.inside_current_target then (s, [])
  else if is_virtual_pointer_event e then ({ s with pointer_type := .Virtual }, [])
  else
    let s := { s with pointer_type := pointer_type_of_string e.pointer_type_str }
    if s.is_pressed then (s, [])
    else
      let s :=
        { s with is_pressed := true, is_over_target := true,
                 active_pointer_id := some e.pointer_id, target := some element }
      let (s1, out) := trigger_press_start props s s.pointer_type
      ({ s1 with listeners_registered := true }, out)

/-- One full pointer gesture against the element: the pointerdown reaches
the element's handler; each subsequent document-scoped pointermove reaches
`on_pointer_move` only while the document listeners are attached; the final
pointerup first bubbles to the element-scoped `on_pointer_up` (when its
target is inside the element) and then reaches the document-scoped
`global_on_pointer_up` (when the document listeners are attached, since they
were registered without capture they run after the element's handler). -/
def run_pointer_gesture (props : PressProps) (element : TargetElem)
    (down : PointerEventM) (moves : List PointerEventM) (upE : PointerEventM) :
    PressState × List PressEvent :=
  let start := on_pointer_down props element init_press_state down
  let afterMoves :=
    moves.foldl
      (fun acc m =>
        if acc.1.listeners_registered then
          let step := on_pointer_move props acc.1 m
          (step.1, acc.2 ++ step.2)
        else acc)
      start
  let afterElemUp :=
    if upE.inside_current_target then
      let step := on_pointer_up props element afterMoves.1 upE
      (step.1, afterMoves.2 ++ step.2)
    else afterMoves
  if afterElemUp.1.listeners_registered then
    let step := global_on_pointer_up props afterElemUp.1 upE
    (step.1, afterElemUp.2 ++ step.2)
  else afterElemUp

/-- A `web_sys::MouseEvent` restricted to the fields `on_click` and
`is_virtual_click` read. -/
structure MouseEventM where
  button : Int
  buttons : Int
  detail : Int
  type_str : String
  moz_input_source : Option Int
  is_trusted : Bool
  is_pointer_event : Bool
  inside_current_target : Bool
deriving DecidableEq

/-- Embeds `is_virtual_click` from `virtual_event.rs` lines 15-37; the
`is_android()` platform capability query is passed as a parameter. -/
def is_virtual_click (android : Bool) (e : MouseEventM) : Bool :=
  if e.moz_input_source = some 0 ∧ e.is_trusted then true
  else if android ∧ e.is_pointer_event then
    decide (e.type_str = "click") && decide (e.buttons = 1)
  else decide (e.detail = 0) && !e.is_pointer_event

/-- Embeds the `on_click` handler from `use_press.rs` lines 302-347:
containment and primary-button guards, then the virtual-click synthetic
start/up/end(commit) triple when not suppressed, and finally the
unconditional reset of both ignore flags. -/
def on_click (props : PressProps) (android : Bool) (s : PressState) (e : MouseEventM) :
    PressState × List PressEvent :=
  if ¬e.inside_current_target then (s, [])
  else if e.button ≠ 0 then (s, [])
  else
    let inner : PressState × List PressEvent :=
      if ¬s.ignore_click_after_press ∧ ¬s.ignore_emulated_mouse_events ∧
          (s.pointer_type = .Virtual ∨ is_virtual_click android e) then
        let r1 := trigger_press_start props s .Virtual
        let r2 := trigger_press_up props r1.1 .Virtual
        let r3 := trigger_press_end props r2.1 .Virtual true
        (r3.1, r1.2 ++ r2.2 ++ r3.2)
      else (s, [])
    ({ inner.1 with ignore_emulated_mouse_events := false, ignore_click_after_press := false },
      inner.2)

/-! ## Concrete inputs used by the evaluation theorems -/

/-- All options off (their source defaults). -/
def props0 : PressProps :=
  ⟨false, false, false, false⟩

/-- An element whose bounding rectangle is `{top 0, right 10, bottom 10,
left 0}`. -/
def elem0 : TargetElem :=
  ⟨0, ⟨0, 10, 10, 0⟩⟩

/-- A genuine primary-button mouse pointerdown at client point (5, 5) inside
the element: width, height and pressure make `is_virtual_pointer_event`
false. -/
def down0 : PointerEventM :=
  ⟨1, 0, "mouse", 5, 5, 2, 2, 0, 1, true⟩

/-- The same pointerdown with the secondary button (`button = 1`). -/
def down1 : PointerEventM :=
  ⟨1, 1, "mouse", 5, 5, 2, 2, 0, 1, true⟩

/-- A pointermove of the same pointer, staying at (5, 5) inside the
element. -/
def move0 : PointerEventM :=
  ⟨1, 0, "mouse", 5, 5, 2, 2, 0, 0, true⟩

/-- A primary-button pointerup of the same pointer at (5, 5) inside the
element. -/
def up0 : PointerEventM :=
  ⟨1, 0, "mouse", 5, 5, 2, 2, 0, 0, true⟩

/-- The state in the middle of a mouse gesture over `elem0`: pressed, start
fired, over target, pointer id 1 active, document listeners attached. -/
def mid_gesture_state : PressState where
  ignore_emulated_mouse_events := false
  ignore_click_after_press := false
  did_fire_press_start := true
  active_pointer_id := some 1
  target := some elem0
  is_over_target := true
  pointer_type := .Mouse
  is_pressed := true
  listeners_registered := true

/-- The same mid-gesture state with a touch pointer recorded. -/
def mid_gesture_state_touch : PressState :=
  { mid_gesture_state with pointer_type := .Touch }

/-! ## Claim theorems for the press state machine -/

/-- C1 (code bug): on the canonical press sequence — a primary-button,
non-virtual mouse pointerdown inside the element, a pointermove staying
inside, and a matching primary-button pointerup inside — the code emits only
a single `PressUp`: `on_pointer_down` returns at its first guard because the
guard reads `event.button() == 0` (under the comment "Only handle left
clicks"), so no `PressStart`, `Press` or `PressEnd` is ever fired and no
document listeners are registered; only the element-scoped `on_pointer_up`
fires. -/
theorem run_pointer_gesture_primary_button_emits_only_press_up :
    (run_pointer_gesture props0 elem0 down0 [move0] up0).2 =
      [⟨.PressUp, .Mouse⟩] ∧
      (run_pointer_gesture props0 elem0 down0 [move0] up0).1 = init_press_state := by
  decide

/-- C2 (code bug): the pointerdown guard is inverted.  A primary-button
(`button = 0`), non-virtual pointerdown inside the element is ignored
entirely (state unchanged, nothing emitted, no listeners registered), while
the identical event with the secondary button (`button = 1`) is processed:
it marks the gesture pressed and over-target, records the pointer id and
target, fires `PressStart` and registers the document listeners. -/
theorem on_pointer_down_button_guard_inverted :
    on_pointer_down props0 elem0 init_press_state down0 = (init_press_state, []) ∧
      (on_pointer_down props0 elem0 init_press_state down1).1.is_pressed = true ∧
      (on_pointer_down props0 elem0 init_press_state down1).1.is_over_target = true ∧
      (on_pointer_down props0 elem0 init_press_state down1).1.active_pointer_id = some 1 ∧
      (on_pointer_down props0 elem0 init_press_state down1).1.target = some elem0 ∧
      (on_pointer_down props0 elem0 init_press_state down1).1.listeners_registered = true ∧
      (on_pointer_down props0 elem0 init_press_state down1).2 = [⟨.PressStart, .Mouse⟩] := by
  decide

/-- C3 (code bug): a document-scoped pointermove with the matching pointer
id that stays inside the target while the pointer is already over it fires
`trigger_press_end` (with `was_over_target = false`) instead of firing
nothing: the source flattens the intended nested condition into an
`else if is_over_target` branch, so the move is treated as an exit even
though `is_above_target` holds. -/
theorem on_pointer_move_inside_while_over_fires_press_end :
    is_above_target move0 elem0 = true ∧
      mid_gesture_state.is_over_target = true ∧
      (on_pointer_move props0 mid_gesture_state move0).2 = [⟨.PressEnd, .Mouse⟩] ∧
      (on_pointer_move props0 mid_gesture_state move0).1.is_pressed = false ∧
      (on_pointer_move props0 mid_gesture_state move0).1.is_over_target = false := by
  decide

/-- C8: every `PressUp` emitted by the element-scoped `on_pointer_up`
handler carries pointer kind `Mouse`, for every state (hence regardless of
the pointer kind recorded at pointerdown); concretely, a touch-driven
mid-gesture state still yields a `Mouse` `PressUp`. -/
theorem on_pointer_up_always_emits_mouse :
    (∀ (props : PressProps) (element : TargetElem) (s : PressState) (e : PointerEventM),
      ((on_pointer_up props element s e).2.all
        (fun ev => ev.pointer_type == PointerType.Mouse)) = true) ∧
      (on_pointer_up props0 elem0 mid_gesture_state_touch up0).2 =
        [⟨.PressUp, .Mouse⟩] := by
  constructor
  · intro props element s e
    unfold on_pointer_up trigger_press_up
    split
    · rfl
    · split
      · rfl
      · split
        · rfl
        · rfl
  · decide

/-- C9: after every click event that passes the containment and
primary-button guards, both `ignore_click_after_press` and
`ignore_emulated_mouse_events` are reset to `false`, whether or not the
synthetic virtual press triple fired. -/
theorem on_click_resets_ignore_flags (props : PressProps) (android : Bool)
    (s : PressState) (e : MouseEventM)
    (h_inside : e.inside_current_target = true) (h_button : e.button = 0) :
    (on_click props android s e).1.ignore_click_after_press = false ∧
      (on_click props android s e).1.ignore_emulated_mouse_events = false := by
  unfold on_click
  rw [if_neg (by simp [h_inside]), if_neg (by simp [h_button])]
  exact ⟨rfl, rfl⟩

/-- C9 witness: a qualifying click (inside the element, primary button) on a
state in which both ignore flags are set leaves both flags `false`. -/
theorem on_click_resets_ignore_flags_witness :
    (⟨0, 1, 0, "click", none, true, false, true⟩ : MouseEventM).inside_current_target = true ∧
      (⟨0, 1, 0, "click", none, true, false, true⟩ : MouseEventM).button = 0 ∧
      ((on_click props0 false
          { mid_gesture_state with
              ignore_click_after_press := true, ignore_emulated_mouse_events := true }
          ⟨0, 1, 0, "click", none, true, false, true⟩).1.ignore_click_after_press = false ∧
        (on_click props0 false
          { mid_gesture_state with
              ignore_click_after_press := true, ignore_emulated_mouse_events := true }
          ⟨0, 1, 0, "click", none, true, false, true⟩).1.ignore_emulated_mouse_events = false) :=
  ⟨rfl, rfl,
    on_click_resets_ignore_flags props0 false
      { mid_gesture_state with
          ignore_click_after_press := true, ignore_emulated_mouse_events := true }
      ⟨0, 1, 0, "click", none, true, false, true⟩ rfl rfl⟩

/-! ## Text selection suppression (`text_selection.rs`) -/

/-- The DOM element classes the eligibility checks distinguish
(`is_instance_of::<HtmlElement>` / `is_instance_of::<SvgElement>`; the two
classes are disjoint). -/
inductive ElemKind
  | html
  | svg
  | other
deriving DecidableEq

/-- A DOM element as the text-selection code sees it: an identity plus its
class. -/
structure DomElem where
  id : Nat
  kind : ElemKind
deriving DecidableEq

/-- State of the generic (non-iOS) strategy: the `ElementListContext`
registry of `(element, recorded user-select value)` pairs, and each
element's current inline `user-select` style value (`""` when unset, as
`get_property_value` reports). -/
structure GenericSelectionState where
  element_list : List (DomElem × String)
  user_select_style : Nat → String

/-- Embeds the non-iOS branch of `disable_text_selection` from
`text_selection.rs` lines 103-136: `None` elements and elements that are
not `HtmlElement`s are ignored (the source tests `HtmlElement` twice, so
SVG elements are rejected here); the current `user-select` value is read;
existing registry entries for the element are rewritten with that value,
and a new entry is appended when none existed.  Exactly as in the source,
no style property is written. -/
def disable_text_selection (st : GenericSelectionState) (element : Option DomElem) :
    GenericSelectionState :=
  match element with
  | none => st
  | some target =>
    if ¬target.kind = .html ∧ ¬target.kind = .html then st
    else
      let user_select := st.user_select_style target.id
      let should_append := !st.element_list.any (fun item => decide (item.1 = target))
      let list :=
        st.element_list.map
          (fun item => if item.1 = target then (item.1, user_select) else item)
      let list := if should_append then list ++ [(target, user_select)] else list
      { st with element_list := list }

/-- Embeds the non-iOS branch of `restore_text_selection` from
`text_selection.rs` lines 200-234: elements that are neither HTML nor SVG
are ignored; absent a registry entry the call is a no-op; otherwise the
element's `user-select` is restored to the recorded value when it currently
reads `"none"`, and the element's entries are removed from the registry.
(The `remove_attribute("style")` cleanup of an empty style attribute has no
counterpart in this model, which tracks only the `user-select` value.) -/
def restore_text_selection (st : GenericSelectionState) (target : DomElem) :
    GenericSelectionState :=
  if ¬target.kind = .html ∧ ¬target.kind = .svg then st
  else
    match st.element_list.find? (fun value => decide (value.1 = target)) with
    | none => st
    | some found =>
      let styles :=
        if st.user_select_style target.id = "none" then
          fun i => if i = target.id then found.2 else st.user_select_style i
        else st.user_select_style
      { element_list := st.element_list.filter (fun item => decide (¬item.1 = target)),
        user_select_style := styles }

/-- `Selection` from `text_selection.rs` (the iOS tri-state). -/
inductive Selection
  | Default
  | Disabled
  | Restoring
deriving DecidableEq

/-- State of the iOS strategy: the process-wide `SelectionContext` tri-state,
the `UserSelectContext` snapshot, and the document root's current inline
`-webkit-user-select` value. -/
structure IosSelectionState where
  selection : Selection
  user_select : Option String
  doc_user_select : String
deriving DecidableEq

/-- Embeds the iOS branch of `disable_text_selection` from
`text_selection.rs` lines 85-101: when the state is `Default`, snapshot the
document root's `-webkit-user-select` and set it to `"none"`; transition to
`Disabled` unconditionally. -/
def disable_text_selection_ios (st : IosSelectionState) : IosSelectionState :=
  let st :=
    if st.selection = .Default then
      { st with user_select := some st.doc_user_select, doc_user_select := "none" }
    else st
  { st with selection := .Disabled }

/-- Embeds the iOS branch of `restore_text_selection` from
`text_selection.rs` lines 155-198, exactly as written: the handler returns
unless the state is `Default`; otherwise it sets the state to `Restoring`
and schedules the delayed callback (the returned `Bool` records whether a
callback was scheduled). -/
def restore_text_selection_ios (st : IosSelectionState) : IosSelectionState × Bool :=
  if ¬st.selection = .Default then (st, false)
  else ({ st with selection := .Restoring }, true)

/-- Embeds the delayed callback inside `restore_text_selection` (lines
168-193), exactly as written: it returns unless the state is `Default` when
it fires; otherwise it writes the snapshot back to the document root (when
the current value is `"none"`), sets the state to `Default` and clears the
snapshot. -/
def restore_timeout_callback (st : IosSelectionState) : IosSelectionState :=
  if ¬st.selection = .Default then st
  else
    let doc :=
      if st.doc_user_select = "none" then st.user_select.getD ""
      else st.doc_user_select
    { selection := .Default, user_select := none, doc_user_select := doc }

/-! ## Listener registry (`global_listeners.rs`) -/

/-- One registration of the `GlobalListeners` slot map: the event target and
the listener function are modelled by identity. -/
structure ListenerEntry where
  target : Nat
  event_type : String
  func : Nat
  capture : Bool
deriving DecidableEq

/-- The recorded registrations (the slot map's values). -/
abbrev GlobalListenersM : Type := List ListenerEntry

/-- Embeds `GlobalListeners::add_listener` from `global_listeners.rs` lines
21-36: the platform call `add_event_listener_with_callback_and_bool` (whose
behaviour is the `attach` parameter) is `.unwrap()`ed — a platform failure
panics, modelled as `Except.error` — and on success the registration is
recorded. -/
def add_listener (attach : ListenerEntry → Except Unit Unit) (gl : GlobalListenersM)
    (target : Nat) (event_type : String) (func : Nat) (capture : Bool) :
    Except Unit GlobalListenersM :=
  let entry : ListenerEntry := ⟨target, event_type, func, capture⟩
  match attach entry with
  | .error e => .error e
  | .ok _ => .ok (gl ++ [entry])

/-- Embeds `GlobalListeners::remove_all_listeners` from
`global_listeners.rs` lines 49-60: each recorded registration is detached
through the `.unwrap()`ed platform call (the `detach` parameter) — the first
failure panics — and on success the registry is cleared. -/
def remove_all_listeners (detach : ListenerEntry → Except Unit Unit) :
    GlobalListenersM → Except Unit GlobalListenersM
  | [] => .ok []
  | entry :: rest =>
    match detach entry with
    | .error e => .error e
    | .ok _ => remove_all_listeners detach rest

/-! ## Claim theorems for text selection and the listener registry -/

/-- C4 (code bug): in the generic strategy, suppressing an unregistered HTML
element whose inline `user-select` is `"inherit"` records that value in the
registry but leaves the element's `user-select` property at `"inherit"` —
the non-iOS branch of `disable_text_selection` contains no
`set_property("user-select", "none")` call at all, although the function's
own doc comment says the property is applied to the pressed element and
`restore_text_selection` only restores when the current value reads
`"none"`. -/
theorem disable_text_selection_records_without_setting_none :
    (disable_text_selection ⟨[], fun _ => "inherit"⟩
        (some ⟨0, ElemKind.html⟩)).element_list = [(⟨0, ElemKind.html⟩, "inherit")] ∧
      (disable_text_selection ⟨[], fun _ => "inherit"⟩
        (some ⟨0, ElemKind.html⟩)).user_select_style 0 = "inherit" := by
  constructor <;> rfl

/-- C5 (code bug): the iOS restore path is dead while `Disabled`.  A restore
request made in the `Disabled` state returns immediately — no transition to
`Restoring` and no scheduled delayed action — because the guard reads
`!= Default` where its own comments ("restore is requested only while
disabled") require `!= Disabled`; and even in the `Restoring` state the
delayed callback does nothing, because its guard proceeds only when the
state is `Default`. -/
theorem restore_text_selection_ios_noop_while_disabled :
    restore_text_selection_ios ⟨.Disabled, some "text", "none"⟩ =
        (⟨.Disabled, some "text", "none"⟩, false) ∧
      restore_timeout_callback ⟨.Restoring, some "text", "none"⟩ =
        ⟨.Restoring, some "text", "none"⟩ := by
  constructor <;> rfl

theorem disable_text_selection_mem_fst {st : GenericSelectionState} {e : DomElem}
    {p : DomElem × String}
    (hp : p ∈ (disable_text_selection st (some e)).element_list) :
    p.1 ∈ st.element_list.map Prod.fst ∨ p.1 = e := by
  simp only [disable_text_selection] at hp
  by_cases hk : ¬e.kind = ElemKind.html ∧ ¬e.kind = ElemKind.html
  · rw [if_pos hk] at hp
    exact Or.inl (List.mem_map_of_mem Prod.fst hp)
  · rw [if_neg hk] at hp
    have hmap :
        ∀ q ∈ st.element_list.map
          (fun item => if item.1 = e then (item.1, st.user_select_style e.id) else item),
          q.1 ∈ st.element_list.map Prod.fst := by
      intro q hq
      rcases List.mem_map.mp hq with ⟨r, hr, hrq⟩
      have hq1 : q.1 = r.1 := by
        by_cases hre : r.1 = e
        · rw [if_pos hre] at hrq
          rw [← hrq]
        · rw [if_neg hre] at hrq
          rw [← hrq]
      rw [hq1]
      exact List.mem_map_of_mem Prod.fst hr
    split at hp
    · rcases List.mem_append.mp hp with h1 | h1
      · exact Or.inl (hmap p h1)
      · rw [List.mem_singleton.mp h1]
        exact Or.inr rfl
    · exact Or.inl (hmap p hp)

/-- C10: in the generic strategy the suppression registry only ever holds
HTML elements — `disable_text_selection` preserves the all-HTML invariant
(its eligibility check tests `HtmlElement` twice, so an SVG element is
silently ignored), while `restore_text_selection` accepts SVG elements past
its eligibility check but then finds no registry entry for them, making the
call a no-op. -/
theorem text_selection_registry_html_only (st : GenericSelectionState) (e : DomElem)
    (hinv : ∀ p ∈ st.element_list, p.1.kind = ElemKind.html) :
    (∀ p ∈ (disable_text_selection st (some e)).element_list, p.1.kind = ElemKind.html) ∧
      (e.kind = ElemKind.svg → disable_text_selection st (some e) = st) ∧
      (e.kind = ElemKind.svg → restore_text_selection st e = st) := by
  refine ⟨?_, ?_, ?_⟩
  · intro p hp
    rcases disable_text_selection_mem_fst hp with h | h
    · rcases List.mem_map.mp h with ⟨q, hq, hqp⟩
      rw [← hqp]
      exact hinv q hq
    · rw [h]
      by_cases hk : e.kind = ElemKind.html
      · exact hk
      · exfalso
        have hcond : ¬e.kind = ElemKind.html ∧ ¬e.kind = ElemKind.html := ⟨hk, hk⟩
        have hst : disable_text_selection st (some e) = st := by
          simp only [disable_text_selection]
          rw [if_pos hcond]
        rw [hst] at hp
        have hph := hinv p hp
        rw [h] at hph
        exact hk hph
  · intro hsvg
    have hcond : ¬e.kind = ElemKind.html ∧ ¬e.kind = ElemKind.html := by
      rw [hsvg]
      exact ⟨by decide, by decide⟩
    simp only [disable_text_selection]
    rw [if_pos hcond]
  · intro hsvg
    have hcond : ¬(¬e.kind = ElemKind.html ∧ ¬e.kind = ElemKind.svg) := by
      rw [hsvg]
      rintro ⟨-, h⟩
      exact h rfl
    have hfind :
        st.element_list.find? (fun value => decide (value.1 = e)) = none := by
      apply List.find?_eq_none.mpr
      intro x hx
      simp only [decide_eq_true_eq]
      intro hxe
      have hx1 := hinv x hx
      rw [hxe, hsvg] at hx1
      exact absurd hx1 (by decide)
    simp only [restore_text_selection]
    rw [if_neg hcond, hfind]

/-- C10 witness: with a registry holding one HTML element, suppressing and
restoring an SVG element are both no-ops and the registry stays
all-HTML. -/
theorem text_selection_registry_html_only_witness :
    (∀ p ∈ [((⟨0, ElemKind.html⟩ : DomElem), "inherit")], p.1.kind = ElemKind.html) ∧
      ((∀ p ∈ (disable_text_selection ⟨[(⟨0, ElemKind.html⟩, "inherit")], fun _ => "x"⟩
          (some ⟨1, ElemKind.svg⟩)).element_list, p.1.kind = ElemKind.html) ∧
        ((⟨1, ElemKind.svg⟩ : DomElem).kind = ElemKind.svg →
          disable_text_selection ⟨[(⟨0, ElemKind.html⟩, "inherit")], fun _ => "x"⟩
            (some ⟨1, ElemKind.svg⟩) = ⟨[(⟨0, ElemKind.html⟩, "inherit")], fun _ => "x"⟩) ∧
        ((⟨1, ElemKind.svg⟩ : DomElem).kind = ElemKind.svg →
          restore_text_selection ⟨[(⟨0, ElemKind.html⟩, "inherit")], fun _ => "x"⟩
            ⟨1, ElemKind.svg⟩ = ⟨[(⟨0, ElemKind.html⟩, "inherit")], fun _ => "x"⟩)) :=
  ⟨by decide,
    text_selection_registry_html_only
      ⟨[(⟨0, ElemKind.html⟩, "inherit")], fun _ => "x"⟩ ⟨1, ElemKind.svg⟩ (by decide)⟩

/-- C7 counterexample: when the platform call to attach a listener fails,
`add_listener` does not ignore the failure — the `.unwrap()` panics,
modelled as the operation producing `Except.error` instead of a registry. -/
theorem add_listener_failure_counterexample :
    add_listener (fun _ => Except.error ()) [] 0 "pointerup" 0 false =
      Except.error () := rfl

/-- C7 (amended): `add_listener` succeeds exactly when the platform attach
call succeeds, and `remove_all_listeners` fails exactly when detaching some
recorded listener fails — platform failures are propagated as panics
(`.unwrap()`), not silently ignored. -/
theorem global_listeners_propagate_platform_failures
    (attach detach : ListenerEntry → Except Unit Unit) (gl : GlobalListenersM)
    (target : Nat) (event_type : String) (func : Nat) (capture : Bool) :
    (add_listener attach gl target event_type func capture = Except.error () ↔
        attach ⟨target, event_type, func, capture⟩ = Except.error ()) ∧
      (remove_all_listeners detach gl = Except.error () ↔
        ∃ l ∈ gl, detach l = Except.error ()) := by
  constructor
  · cases h : attach ⟨target, event_type, func, capture⟩ with
    | error e =>
      cases e
      simp [add_listener, h]
    | ok v =>
      simp [add_listener, h]
  · induction gl with
    | nil =>
      simp [remove_all_listeners]
    | cons a rest ih =>
      rw [remove_all_listeners]
      cases h : detach a with
      | error e =>
        cases e
        simp [h]
      | ok v =>
        simp only [List.mem_cons]
        rw [ih]
        constructor
        · rintro ⟨l, hl, hdl⟩
          exact ⟨l, Or.inr hl, hdl⟩
        · rintro ⟨l, hl, hdl⟩
          rcases hl with rfl | hl
          · rw [h] at hdl
            cases hdl
          · exact ⟨l, hl, hdl⟩

end LeptosAria
